import Mathlib

/-
  Shallow embedding of the OneWire driver (src/ow.c, src/ow.h) in the
  multi-device build (OW_MAX_DEVICE > 1), together with theorems checking
  the natural-language specification against it.

  Byte arrays are modelled as functions `Nat → Nat` holding values < 256 in
  the positions the code uses; machine integers are Nat (all the quantities
  involved stay far below any wrap boundary on the paths modelled, and
  where the C code's bounds checks matter they are carried over verbatim).
  Hardware effects (GPIO writes/reads, timer programming, the completion
  callback) are recorded in an explicit action trace; the level sampled by
  ow_read_bit is supplied as an explicit input to each step.
-/

namespace OW

set_option maxRecDepth 100000

/-- Error values returned by OneWire operations (ow_err_t). -/
inductive ow_err where
  | err_none
  | err_busy
  | err_bus
  | err_reset
  | err_len
  | err_rom_id
deriving DecidableEq

/-- Driver state machine values (ow_state_t). -/
inductive ow_state where
  | idle
  | xfer
  | search
  | done
deriving DecidableEq

/-- Encoded values read/written on the bus (ow_val_t); kept as Nat because
the code combines them with a bitwise or. -/
def OW_VAL_DIFF : Nat := 0x00
def OW_VAL_0 : Nat := 0x01
def OW_VAL_1 : Nat := 0x10
def OW_VAL_ERR : Nat := 0x11

/-- ROM-level command bytes (ow_cmd_t). -/
def OW_CMD_READ_ROM : Nat := 0x33
def OW_CMD_MATCH_ROM : Nat := 0x55
def OW_CMD_SKIP_ROM : Nat := 0xCC
def OW_CMD_SEARCH_ROM : Nat := 0xF0

/-- Observable hardware effects: calls to the GPIO primitive (ow_write_bit
and ow_read_bit), to the timer collaborator, and to the completion
callback. -/
inductive action where
  | gpio_write (high : Bool)
  | gpio_read
  | tim_set_arr (v : Nat)
  | tim_set_cnt (v : Nat)
  | tim_clear_it
  | tim_start
  | tim_stop
  | done_cb (e : ow_err)
deriving DecidableEq

/-- Externally supplied configuration constants (ow_config.h): maximum
payload length, maximum device count, and the timing constants in timer
ticks. -/
structure ow_cfg where
  OW_MAX_DATA_LEN : Nat
  OW_MAX_DEVICE : Nat
  OW_TIM_RST : Nat
  OW_TIM_RST_DET : Nat
  OW_TIM_WRITE_LOW : Nat
  OW_TIM_WRITE_HIGH : Nat
  OW_TIM_READ_LOW : Nat
  OW_TIM_READ_SAMPLE : Nat
  OW_TIM_READ_HIGH : Nat

/-- Size of ow_buf_t.data in the multi-device build:
1 + 8 + 1 + OW_MAX_DATA_LEN bytes. -/
def ow_data_size (cfg : ow_cfg) : Nat := 1 + 8 + 1 + cfg.OW_MAX_DATA_LEN

/-- Internal transfer buffer (ow_buf_t). -/
structure ow_buf where
  data : Nat → Nat
  bit_ph : Nat
  bit_idx : Nat
  byte_idx : Nat
  write_len : Nat
  read_len : Nat

/-- The all-zero buffer produced by memset(&handle->buf, 0, sizeof(ow_buf_t)). -/
def ow_buf.zero : ow_buf :=
  { data := fun _ => 0, bit_ph := 0, bit_idx := 0, byte_idx := 0
    write_len := 0, read_len := 0 }

/-- ROM search state (ow_search_t). -/
structure ow_search where
  val : Nat
  last_discrepancy : Nat
  last_zero : Nat
  last_device_flag : Nat
  rom_id : Nat → Nat

/-- The all-zero search state produced by memset(&handle->search, 0, ...). -/
def ow_search.zero : ow_search :=
  { val := 0, last_discrepancy := 0, last_zero := 0, last_device_flag := 0
    rom_id := fun _ => 0 }

/-- Main driver handle (ow_handle_t), multi-device build.  `rom_id` is the
discovered-address table (device index, byte index); `bus` is the level the
driver last drove on the pin; `tim_arr` the programmed autoreload value;
`has_cb` whether a completion callback was registered. -/
structure ow_handle where
  buf : ow_buf
  state : ow_state
  error : ow_err
  rom_id : Nat → Nat → Nat
  rom_id_found : Nat
  search : ow_search
  bus : Bool
  tim_arr : Nat
  tim_on : Bool
  has_cb : Bool

/-- Pointwise update of a byte array at one index. -/
def upd (f : Nat → Nat) (i v : Nat) : Nat → Nat :=
  fun j => if j = i then v else f j

/-- The copy loop `for (idx = 0; idx < len; idx++) dst[off + idx] = src[idx]`. -/
def copy_in (dst : Nat → Nat) (off : Nat) (src : Nat → Nat) : Nat → (Nat → Nat)
  | 0 => dst
  | n + 1 => upd (copy_in dst off src n) (off + n) (src n)

/-- The inner 8-iteration bit loop of ow_crc: mix the low bits, shift right,
and xor with 0x8C when the mixed-out bit was 1. -/
def crc_bits : Nat → Nat → Nat → Nat
  | 0, crc, _ => crc
  | i + 1, crc, inbyte =>
    let mix := (crc ^^^ inbyte) &&& 0x01
    let crc1 := crc >>> 1
    let crc2 := if mix ≠ 0 then crc1 ^^^ 0x8C else crc1
    crc_bits i crc2 (inbyte >>> 1)

/-- ow_crc: Dallas/Maxim CRC-8 over a byte sequence (the while (len--) loop
over the inner 8-bit loop), starting from checksum 0. -/
def ow_crc (data : List Nat) : Nat :=
  data.foldl (fun crc inbyte => crc_bits 8 crc inbyte) 0

/-- ow_write_bit: drive the bus pin high or low (one GPIO primitive call). -/
def ow_write_bit (h : ow_handle) (high : Bool) : ow_handle × List action :=
  ({ h with bus := high }, [action.gpio_write high])

/-- ow_stop: stop the timer interrupt, release the bus (drive high), set the
state to idle, and invoke the completion callback (if registered) with the
last error. -/
def ow_stop (h : ow_handle) : ow_handle × List action :=
  let h1 := { h with tim_on := false }
  let (h2, a2) := ow_write_bit h1 true
  let h3 := { h2 with state := ow_state.idle }
  (h3, action.tim_stop :: a2 ++ (if h.has_cb then [action.done_cb h.error] else []))

/-- ow_start: reject when not idle; otherwise drive the bus high, sample it
(the sampled level is the `line` input — OW_ERR_BUS when low), then clear the
timer interrupt, zero the transfer buffer, and start the timer with the
reset-detect period. -/
def ow_start (cfg : ow_cfg) (h : ow_handle) (line : Bool) :
    ow_err × ow_handle × List action :=
  if h.state ≠ ow_state.idle then
    (ow_err.err_busy, h, [])
  else
    let (h1, a1) := ow_write_bit h true
    let a2 := a1 ++ [action.gpio_read]
    if !line then
      (ow_err.err_bus, h1, a2)
    else
      let h2 := { h1 with buf := ow_buf.zero
                          tim_arr := cfg.OW_TIM_RST_DET - 1
                          tim_on := true }
      (ow_err.err_none, h2,
        a2 ++ [action.tim_clear_it, action.tim_set_cnt 0,
               action.tim_set_arr (cfg.OW_TIM_RST_DET - 1), action.tim_start])

/-- ow_update_rom_id (multi-device build): start the bus (stopping on
failure), then arm the search engine: state := SEARCH, data[0] := SEARCH ROM,
clear the found count, the search state and the discovered-address table. -/
def ow_update_rom_id (cfg : ow_cfg) (h : ow_handle) (line : Bool) :
    ow_err × ow_handle × List action :=
  let (e, h1, a1) := ow_start cfg h line
  let h1 := { h1 with error := e }
  if e ≠ ow_err.err_none then
    let (h2, a2) := ow_stop h1
    (e, h2, a1 ++ a2)
  else
    let h2 := { h1 with state := ow_state.search
                        buf := { h1.buf with data := upd h1.buf.data 0 OW_CMD_SEARCH_ROM }
                        rom_id_found := 0
                        search := ow_search.zero
                        rom_id := fun _ _ => 0 }
    (ow_err.err_none, h2, a1)

/-- ow_write_any: length check, start (stopping on failure), then arm the
transfer engine with SKIP ROM, the function command, and the optional
payload.  The user payload is a byte source `data` together with `len`;
`data = none` models a NULL pointer. -/
def ow_write_any (cfg : ow_cfg) (h : ow_handle) (line : Bool) (fn_cmd : Nat)
    (data : Option (Nat → Nat)) (len : Nat) : ow_err × ow_handle × List action :=
  if len > cfg.OW_MAX_DATA_LEN then
    let h1 := { h with error := ow_err.err_len }
    let (h2, a2) := ow_stop h1
    (ow_err.err_len, h2, a2)
  else
    let (e, h1, a1) := ow_start cfg h line
    let h1 := { h1 with error := e }
    if e ≠ ow_err.err_none then
      let (h2, a2) := ow_stop h1
      (e, h2, a1 ++ a2)
    else
      let d1 := upd (upd h1.buf.data 0 OW_CMD_SKIP_ROM) 1 fn_cmd
      match data with
      | some src =>
        let h2 := { h1 with state := ow_state.xfer
                            buf := { h1.buf with data := copy_in d1 2 src len
                                                 write_len := len + 2 } }
        (ow_err.err_none, h2, a1)
      | none =>
        let h2 := { h1 with state := ow_state.xfer
                            buf := { h1.buf with data := d1, write_len := 2 } }
        (ow_err.err_none, h2, a1)

/-- ow_read_any: length check, start (stopping on failure), then arm the
transfer engine with SKIP ROM, the function command, write_len = 2 and
read_len = len. -/
def ow_read_any (cfg : ow_cfg) (h : ow_handle) (line : Bool) (fn_cmd : Nat)
    (len : Nat) : ow_err × ow_handle × List action :=
  if len > cfg.OW_MAX_DATA_LEN then
    let h1 := { h with error := ow_err.err_len }
    let (h2, a2) := ow_stop h1
    (ow_err.err_len, h2, a2)
  else
    let (e, h1, a1) := ow_start cfg h line
    let h1 := { h1 with error := e }
    if e ≠ ow_err.err_none then
      let (h2, a2) := ow_stop h1
      (e, h2, a1 ++ a2)
    else
      let d1 := upd (upd h1.buf.data 0 OW_CMD_SKIP_ROM) 1 fn_cmd
      let h2 := { h1 with state := ow_state.xfer
                          buf := { h1.buf with data := d1, write_len := 2
                                               read_len := len } }
      (ow_err.err_none, h2, a1)

/-- The MATCH ROM selection prefix written by the by-index requests:
data[0] := MATCH ROM, data[1+i] := rom_id[idx][i] for i < 8,
data[9] := fn_cmd. -/
def match_rom_bytes (h : ow_handle) (idx fn_cmd : Nat) : Nat → Nat :=
  upd (copy_in (upd h.buf.data 0 OW_CMD_MATCH_ROM) 1 (h.rom_id idx) 8) 9 fn_cmd

/-- ow_write_by_id: length check, ROM-index check, start (stopping on
failure), then arm the transfer engine with MATCH ROM + address + function
command + optional payload. -/
def ow_write_by_id (cfg : ow_cfg) (h : ow_handle) (line : Bool) (idx fn_cmd : Nat)
    (data : Option (Nat → Nat)) (len : Nat) : ow_err × ow_handle × List action :=
  if len > cfg.OW_MAX_DATA_LEN then
    let h1 := { h with error := ow_err.err_len }
    let (h2, a2) := ow_stop h1
    (ow_err.err_len, h2, a2)
  else if h.rom_id_found = 0 ∨ idx ≥ h.rom_id_found then
    let h1 := { h with error := ow_err.err_rom_id }
    let (h2, a2) := ow_stop h1
    (ow_err.err_rom_id, h2, a2)
  else
    let (e, h1, a1) := ow_start cfg h line
    let h1 := { h1 with error := e }
    if e ≠ ow_err.err_none then
      let (h2, a2) := ow_stop h1
      (e, h2, a1 ++ a2)
    else
      let d1 := match_rom_bytes h1 idx fn_cmd
      match data, len with
      | some src, l + 1 =>
        let h2 := { h1 with state := ow_state.xfer
                            buf := { h1.buf with data := copy_in d1 10 src (l + 1)
                                                 write_len := l + 1 + 10 } }
        (ow_err.err_none, h2, a1)
      | _, _ =>
        let h2 := { h1 with state := ow_state.xfer
                            buf := { h1.buf with data := d1, write_len := 10 } }
        (ow_err.err_none, h2, a1)

/-- ow_read_by_id: length check, ROM-index check, start (stopping on
failure), then arm the transfer engine with MATCH ROM + address + function
command, write_len = 10 and read_len = len. -/
def ow_read_by_id (cfg : ow_cfg) (h : ow_handle) (line : Bool) (idx fn_cmd : Nat)
    (len : Nat) : ow_err × ow_handle × List action :=
  if len > cfg.OW_MAX_DATA_LEN then
    let h1 := { h with error := ow_err.err_len }
    let (h2, a2) := ow_stop h1
    (ow_err.err_len, h2, a2)
  else if h.rom_id_found = 0 ∨ idx ≥ h.rom_id_found then
    let h1 := { h with error := ow_err.err_rom_id }
    let (h2, a2) := ow_stop h1
    (ow_err.err_rom_id, h2, a2)
  else
    let (e, h1, a1) := ow_start cfg h line
    let h1 := { h1 with error := e }
    if e ≠ ow_err.err_none then
      let (h2, a2) := ow_stop h1
      (e, h2, a1 ++ a2)
    else
      let d1 := match_rom_bytes h1 idx fn_cmd
      let h2 := { h1 with state := ow_state.xfer
                          buf := { h1.buf with data := d1, write_len := 10
                                               read_len := len } }
      (ow_err.err_none, h2, a1)

/-- ow_is_busy: true when the driver state is not idle. -/
def ow_is_busy (h : ow_handle) : Bool :=
  h.state ≠ ow_state.idle

/-- ow_last_error: the one-per-handle last error slot. -/
def ow_last_error (h : ow_handle) : ow_err :=
  h.error

/-- ow_devices: number of discovered devices. -/
def ow_devices (h : ow_handle) : Nat :=
  h.rom_id_found

/-- ow_read_resp: copy up to the caller's capacity from the portion of the
internal buffer following write_len, with the defensive clamp against the
buffer size; returns the byte count together with the copied bytes. -/
def ow_read_resp (cfg : ow_cfg) (h : ow_handle) (data_size : Nat) :
    Nat × List Nat :=
  let len0 := h.buf.read_len
  let len1 := if data_size < len0 then data_size else len0
  if h.buf.write_len + len1 > ow_data_size cfg then
    if h.buf.write_len < ow_data_size cfg then
      let len2 := ow_data_size cfg - h.buf.write_len
      (len2, (List.range len2).map fun i => h.buf.data (h.buf.write_len + i))
    else
      (0, [])
  else
    (len1, (List.range len1).map fun i => h.buf.data (h.buf.write_len + i))

/-- ow_state_xfer: the transfer-engine micro-phase executed on one timer
interrupt while state == XFER.  `line` is the level ow_read_bit would
sample on this tick. -/
def ow_state_xfer (cfg : ow_cfg) (h : ow_handle) (line : Bool) :
    ow_handle × List action :=
  match h.buf.bit_ph with
  | 0 =>
    let (h1, a1) := ow_write_bit { h with tim_arr := cfg.OW_TIM_RST - 1 } false
    ({ h1 with buf := { h1.buf with bit_ph := h1.buf.bit_ph + 1 } },
      action.tim_set_arr (cfg.OW_TIM_RST - 1) :: a1)
  | 1 =>
    let (h1, a1) := ow_write_bit { h with tim_arr := cfg.OW_TIM_RST_DET - 1 } true
    ({ h1 with buf := { h1.buf with bit_ph := h1.buf.bit_ph + 1 } },
      action.tim_set_arr (cfg.OW_TIM_RST_DET - 1) :: a1)
  | 2 =>
    if line then
      let (h1, a1) := ow_stop { h with error := ow_err.err_reset }
      (h1, action.gpio_read :: a1)
    else
      ({ h with tim_arr := cfg.OW_TIM_RST - 1
                buf := { h.buf with bit_ph := h.buf.bit_ph + 1 } },
        [action.gpio_read, action.tim_set_arr (cfg.OW_TIM_RST - 1)])
  | 3 =>
    let arr := if h.buf.data h.buf.byte_idx &&& (1 <<< h.buf.bit_idx) ≠ 0 then
                 cfg.OW_TIM_WRITE_LOW - 1 else cfg.OW_TIM_WRITE_HIGH - 1
    let (h1, a1) := ow_write_bit { h with tim_arr := arr } false
    ({ h1 with buf := { h1.buf with bit_ph := h1.buf.bit_ph + 1 } },
      action.tim_set_arr arr :: a1)
  | 4 =>
    let arr := if h.buf.data h.buf.byte_idx &&& (1 <<< h.buf.bit_idx) ≠ 0 then
                 cfg.OW_TIM_WRITE_HIGH - 1 else cfg.OW_TIM_WRITE_LOW - 1
    let (h1, a1) := ow_write_bit { h with tim_arr := arr } true
    let b1 : ow_buf := { h1.buf with bit_idx := h1.buf.bit_idx + 1 }
    if b1.bit_idx = 8 then
      let b2 : ow_buf := { b1 with bit_idx := 0, byte_idx := b1.byte_idx + 1 }
      if b2.byte_idx = b2.write_len then
        if b2.read_len > 0 then
          ({ h1 with buf := { b2 with bit_ph := 5, byte_idx := 0 } },
            action.tim_set_arr arr :: a1)
        else
          ({ h1 with buf := b2, state := ow_state.done },
            action.tim_set_arr arr :: a1)
      else
        ({ h1 with buf := { b2 with bit_ph := 3 } }, action.tim_set_arr arr :: a1)
    else
      ({ h1 with buf := { b1 with bit_ph := 3 } }, action.tim_set_arr arr :: a1)
  | 5 =>
    let (h1, a1) := ow_write_bit { h with tim_arr := cfg.OW_TIM_READ_LOW - 1 } false
    ({ h1 with buf := { h1.buf with bit_ph := h1.buf.bit_ph + 1 } },
      action.tim_set_arr (cfg.OW_TIM_READ_LOW - 1) :: a1)
  | 6 =>
    let (h1, a1) := ow_write_bit { h with tim_arr := cfg.OW_TIM_READ_SAMPLE - 1 } true
    ({ h1 with buf := { h1.buf with bit_ph := h1.buf.bit_ph + 1 } },
      action.tim_set_arr (cfg.OW_TIM_READ_SAMPLE - 1) :: a1)
  | 7 =>
    let h1 := { h with tim_arr := cfg.OW_TIM_READ_HIGH - 1 }
    let d1 := if line then
                upd h1.buf.data (h1.buf.write_len + h1.buf.byte_idx)
                  (h1.buf.data (h1.buf.write_len + h1.buf.byte_idx) ||| (1 <<< h1.buf.bit_idx))
              else h1.buf.data
    let b1 : ow_buf := { h1.buf with data := d1, bit_ph := 5, bit_idx := h1.buf.bit_idx + 1 }
    let a1 := [action.tim_set_arr (cfg.OW_TIM_READ_HIGH - 1), action.gpio_read]
    if b1.bit_idx = 8 then
      let b2 : ow_buf := { b1 with bit_idx := 0, byte_idx := b1.byte_idx + 1 }
      if b2.byte_idx = b2.read_len then
        ({ h1 with buf := b2, state := ow_state.done }, a1)
      else
        ({ h1 with buf := b2 }, a1)
    else
      ({ h1 with buf := b1 }, a1)
  | _ => (h, [])

/-- ow_state_search: the search-engine micro-phase executed on one timer
interrupt while state == SEARCH.  Phases 0-2 are the reset sequence, 3-4
write the SEARCH ROM command bits, 5-7 read the address bit, 8-10 read its
complement and resolve the triplet, 11-12 write the chosen bit back and
handle the end of a 64-bit pass. -/
def ow_state_search (cfg : ow_cfg) (h : ow_handle) (line : Bool) :
    ow_handle × List action :=
  match h.buf.bit_ph with
  | 0 =>
    let (h1, a1) := ow_write_bit { h with tim_arr := cfg.OW_TIM_RST - 1 } false
    ({ h1 with buf := { h1.buf with bit_ph := h1.buf.bit_ph + 1 } },
      action.tim_set_arr (cfg.OW_TIM_RST - 1) :: a1)
  | 1 =>
    let (h1, a1) := ow_write_bit { h with tim_arr := cfg.OW_TIM_RST_DET - 1 } true
    ({ h1 with buf := { h1.buf with bit_ph := h1.buf.bit_ph + 1 } },
      action.tim_set_arr (cfg.OW_TIM_RST_DET - 1) :: a1)
  | 2 =>
    if line then
      let (h1, a1) := ow_stop { h with error := ow_err.err_reset }
      (h1, action.gpio_read :: a1)
    else
      ({ h with tim_arr := cfg.OW_TIM_RST - 1
                buf := { h.buf with bit_ph := h.buf.bit_ph + 1 } },
        [action.gpio_read, action.tim_set_arr (cfg.OW_TIM_RST - 1)])
  | 3 =>
    let arr := if h.buf.data 0 &&& (1 <<< h.buf.bit_idx) ≠ 0 then
                 cfg.OW_TIM_WRITE_LOW - 1 else cfg.OW_TIM_WRITE_HIGH - 1
    let (h1, a1) := ow_write_bit { h with tim_arr := arr } false
    ({ h1 with buf := { h1.buf with bit_ph := h1.buf.bit_ph + 1 } },
      action.tim_set_arr arr :: a1)
  | 4 =>
    let arr := if h.buf.data 0 &&& (1 <<< h.buf.bit_idx) ≠ 0 then
                 cfg.OW_TIM_WRITE_HIGH - 1 else cfg.OW_TIM_WRITE_LOW - 1
    let (h1, a1) := ow_write_bit { h with tim_arr := arr } true
    let b1 : ow_buf := { h1.buf with bit_idx := h1.buf.bit_idx + 1 }
    if b1.bit_idx = 8 then
      ({ h1 with buf := { b1 with bit_idx := 0, bit_ph := 5 } },
        action.tim_set_arr arr :: a1)
    else
      ({ h1 with buf := { b1 with bit_ph := 3 } }, action.tim_set_arr arr :: a1)
  | 5 =>
    let (h1, a1) := ow_write_bit { h with tim_arr := cfg.OW_TIM_READ_LOW - 1 } false
    ({ h1 with buf := { h1.buf with bit_ph := h1.buf.bit_ph + 1 } },
      action.tim_set_arr (cfg.OW_TIM_READ_LOW - 1) :: a1)
  | 6 =>
    let (h1, a1) := ow_write_bit { h with tim_arr := cfg.OW_TIM_READ_SAMPLE - 1 } true
    ({ h1 with buf := { h1.buf with bit_ph := h1.buf.bit_ph + 1 } },
      action.tim_set_arr (cfg.OW_TIM_READ_SAMPLE - 1) :: a1)
  | 7 =>
    let v := if line then OW_VAL_1 else OW_VAL_DIFF
    ({ h with tim_arr := cfg.OW_TIM_READ_HIGH - 1
              search := { h.search with val := v }
              buf := { h.buf with bit_ph := h.buf.bit_ph + 1 } },
      [action.tim_set_arr (cfg.OW_TIM_READ_HIGH - 1), action.gpio_read])
  | 8 =>
    let (h1, a1) := ow_write_bit { h with tim_arr := cfg.OW_TIM_READ_LOW - 1 } false
    ({ h1 with buf := { h1.buf with bit_ph := h1.buf.bit_ph + 1 } },
      action.tim_set_arr (cfg.OW_TIM_READ_LOW - 1) :: a1)
  | 9 =>
    let (h1, a1) := ow_write_bit { h with tim_arr := cfg.OW_TIM_READ_SAMPLE - 1 } true
    ({ h1 with buf := { h1.buf with bit_ph := h1.buf.bit_ph + 1 } },
      action.tim_set_arr (cfg.OW_TIM_READ_SAMPLE - 1) :: a1)
  | 10 =>
    let v1 := if line then h.search.val ||| OW_VAL_0 else h.search.val
    let h1 := { h with tim_arr := cfg.OW_TIM_READ_HIGH - 1
                       search := { h.search with val := v1 }
                       buf := { h.buf with bit_ph := h.buf.bit_ph + 1 } }
    let a1 := [action.tim_set_arr (cfg.OW_TIM_READ_HIGH - 1), action.gpio_read]
    let bit_number := h1.buf.bit_idx + 1
    if v1 = OW_VAL_DIFF then
      let bit_choice :=
        if bit_number < h1.search.last_discrepancy then
          (h1.search.rom_id (h1.buf.bit_idx / 8) >>> (h1.buf.bit_idx % 8)) &&& 0x01
        else if bit_number = h1.search.last_discrepancy then
          1
        else
          0
      let s1 := if bit_number < h1.search.last_discrepancy ∨
                   bit_number = h1.search.last_discrepancy then h1.search
                else { h1.search with last_zero := bit_number }
      ({ h1 with search := { s1 with val := if bit_choice ≠ 0 then OW_VAL_1 else OW_VAL_0 } },
        a1)
    else if v1 = OW_VAL_ERR then
      let (h2, a2) := ow_stop { h1 with error := ow_err.err_rom_id }
      (h2, a1 ++ a2)
    else
      (h1, a1)
  | 11 =>
    if h.search.val = OW_VAL_1 then
      let h1 := { h with tim_arr := cfg.OW_TIM_WRITE_LOW - 1
                         search := { h.search with
                           rom_id := upd h.search.rom_id (h.buf.bit_idx / 8)
                             (h.search.rom_id (h.buf.bit_idx / 8) ||| (1 <<< (h.buf.bit_idx % 8))) } }
      let (h2, a2) := ow_write_bit h1 false
      ({ h2 with buf := { h2.buf with bit_ph := h2.buf.bit_ph + 1 } },
        action.tim_set_arr (cfg.OW_TIM_WRITE_LOW - 1) :: a2)
    else
      let (h2, a2) := ow_write_bit { h with tim_arr := cfg.OW_TIM_WRITE_HIGH - 1 } false
      ({ h2 with buf := { h2.buf with bit_ph := h2.buf.bit_ph + 1 } },
        action.tim_set_arr (cfg.OW_TIM_WRITE_HIGH - 1) :: a2)
  | 12 =>
    let arr := if h.search.val = OW_VAL_1 then cfg.OW_TIM_WRITE_HIGH - 1
               else cfg.OW_TIM_WRITE_LOW - 1
    let (h1, a1) := ow_write_bit { h with tim_arr := arr } true
    let b1 : ow_buf := { h1.buf with bit_idx := h1.buf.bit_idx + 1 }
    if b1.bit_idx = 64 then
      let b2 : ow_buf := { b1 with bit_idx := 0, bit_ph := 0 }
      let h2 : ow_handle :=
        if ow_crc ((List.range 7).map h1.search.rom_id) = h1.search.rom_id 7 then
          { h1 with rom_id := fun d => if d = h1.rom_id_found then h1.search.rom_id
                                       else h1.rom_id d
                    rom_id_found := h1.rom_id_found + 1 }
        else h1
      let s2 : ow_search :=
        { h2.search with
          rom_id := fun _ => 0
          last_discrepancy := h2.search.last_zero
          last_zero := 0 }
      if s2.last_discrepancy = 0 ∨ h2.rom_id_found = cfg.OW_MAX_DEVICE then
        ({ h2 with buf := b2
                   search := { s2 with last_device_flag := 1 }
                   state := ow_state.done },
          action.tim_set_arr arr :: a1)
      else
        ({ h2 with buf := { b2 with data := upd b2.data 0 OW_CMD_SEARCH_ROM
                                    bit_idx := 0, bit_ph := 0 }
                   search := s2 },
          action.tim_set_arr arr :: a1)
    else
      ({ h1 with buf := { b1 with bit_ph := 5 } }, action.tim_set_arr arr :: a1)
  | _ => (h, [])

/-- ow_callback: the timer-interrupt entry point; dispatch on the current
driver state, stopping in any state other than XFER/SEARCH. -/
def ow_callback (cfg : ow_cfg) (h : ow_handle) (line : Bool) :
    ow_handle × List action :=
  match h.state with
  | ow_state.xfer => ow_state_xfer cfg h line
  | ow_state.search => ow_state_search cfg h line
  | _ => ow_stop h

/-- Run the timer callback over a list of sampled bus levels, one interrupt
per list element. -/
def run_cb (cfg : ow_cfg) (h : ow_handle) (lines : List Bool) : ow_handle :=
  lines.foldl (fun h' b => (ow_callback cfg h' b).1) h

/-- Bus-level (GPIO primitive) calls within an action trace. -/
def is_gpio : action → Bool
  | action.gpio_write _ => true
  | action.gpio_read => false
  | _ => false

/-- The GPIO pin-drive calls of a trace (the spec counts GPIO-primitive
calls to verify absence of bus activity; ow_read_bit does not drive the
pin, so the drives are what can disturb the bus). -/
def gpio_writes (l : List action) : List action :=
  l.filter is_gpio

/-- One step of the CRC-8 algorithm as worded by the specification: XOR the
input bit into the running checksum's low bit; if the result is 1,
right-shift and XOR with 0x8C, otherwise just right-shift.  (Spec-side
definition, for the refinement proof against ow_crc.) -/
def crc8_step (crc : Nat) (bit : Bool) : Nat :=
  let mixed := (crc % 2) ^^^ (if bit then 1 else 0)
  if mixed = 1 then (crc / 2) ^^^ 0x8C else crc / 2

/-- The bits of one byte, least-significant first.  (Spec-side.) -/
def byte_bits_lsb (n b : Nat) : List Bool :=
  (List.range n).map fun i => b / 2 ^ i % 2 == 1

/-- The CRC-8 checksum as worded by the specification: fold the bit step
over every byte's bits, least-significant first.  (Spec-side.) -/
def crc8_of_spec (l : List Nat) : Nat :=
  l.foldl (fun c b => (byte_bits_lsb 8 b).foldl crc8_step c) 0

/-- The device-count invariant of the discovered-address list: the count
never exceeds the capacity, and while a search is in flight there is still
room for the candidate the pass may append. -/
def rom_inv (cfg : ow_cfg) (h : ow_handle) : Prop :=
  h.rom_id_found ≤ cfg.OW_MAX_DEVICE ∧
    (h.state = ow_state.search → h.rom_id_found < cfg.OW_MAX_DEVICE)

/-- A concrete configuration used for witnesses and counterexamples:
OW_MAX_DATA_LEN = 8 (so the buffer holds 18 bytes), OW_MAX_DEVICE = 4, and
typical timing constants. -/
def cfg0 : ow_cfg :=
  { OW_MAX_DATA_LEN := 8, OW_MAX_DEVICE := 4, OW_TIM_RST := 480
    OW_TIM_RST_DET := 70, OW_TIM_WRITE_LOW := 6, OW_TIM_WRITE_HIGH := 64
    OW_TIM_READ_LOW := 6, OW_TIM_READ_SAMPLE := 9, OW_TIM_READ_HIGH := 55 }

/-- A concrete freshly initialised handle: idle, no error, empty buffer,
released bus, completion callback registered. -/
def h0 : ow_handle :=
  { buf := ow_buf.zero, state := ow_state.idle, error := ow_err.err_none
    rom_id := fun _ _ => 0, rom_id_found := 0, search := ow_search.zero
    bus := true, tim_arr := 0, tim_on := false, has_cb := true }

/-- A concrete handle with a transfer in flight (state = XFER, timer
running, one byte still to write then one to read). -/
def h_busy : ow_handle :=
  { h0 with state := ow_state.xfer, tim_on := true
            buf := { ow_buf.zero with bit_ph := 3, write_len := 1, read_len := 1 } }

/-- A concrete handle at the presence-sample phase (bit_ph = 2) of a
transfer whose cursors say: nothing to write, one byte to read. -/
def h_ph2 : ow_handle :=
  { h0 with state := ow_state.xfer, tim_on := true
            buf := { ow_buf.zero with bit_ph := 2, write_len := 0, read_len := 1 } }

/-- A concrete handle whose stored write cursor (19) lies past the end of
the 18-byte internal buffer of cfg0, with a nonzero read_len. -/
def h_wl19 : ow_handle :=
  { h0 with buf := { ow_buf.zero with write_len := 19, read_len := 4 } }

/-- A concrete handle captured at the last micro-phase (bit_ph = 12,
bit_idx = 63) of a search pass during which the engine chose bit 1 at bit
position 2 (search.rom_id bit 1 is set) and recorded a deeper unexplored
branch at position 5 (last_zero = 5); one device was found in an earlier
pass.  This is the state the standard algorithm reaches with three devices
whose addresses branch at positions 2 and 5. -/
def h_pass_end : ow_handle :=
  { buf := { data := fun i => if i = 0 then OW_CMD_SEARCH_ROM else 0
             bit_ph := 12, bit_idx := 63, byte_idx := 0, write_len := 0, read_len := 0 }
    state := ow_state.search
    error := ow_err.err_none
    rom_id := fun _ _ => 0
    rom_id_found := 1
    search := { val := OW_VAL_0, last_discrepancy := 2, last_zero := 5
                last_device_flag := 0, rom_id := fun i => if i = 0 then 2 else 0 }
    bus := true, tim_arr := 0, tim_on := true, has_cb := false }

/-- Bus levels driving h_pass_end through the end-of-pass step, the next
pass's reset (presence detected), the 8 SEARCH ROM command bits, a
non-discrepant triplet (bit 0) at position 1, and a discrepant triplet
(bit 0, complement 0) at position 2. -/
def lines_replay : List Bool := List.replicate 25 false ++ [true] ++ List.replicate 8 false

/-- A concrete handle whose operation has just completed (state = DONE)
with the bus still held low by the last slot. -/
def h_done : ow_handle :=
  { h0 with state := ow_state.done, tim_on := true, bus := false
            error := ow_err.err_none }

/-- A concrete busy handle on which two devices have already been
discovered (so the by-index requests pass their ROM-index check). -/
def h_busy_dev : ow_handle :=
  { h_busy with rom_id_found := 2 }

/-- The running CRC checksum stays an 8-bit value through the inner bit loop. -/
theorem crc_bits_lt (i : Nat) : ∀ crc inbyte : Nat, crc < 256 → crc_bits i crc inbyte < 256 := by
  induction i with
  | zero =>
    intro c b hc
    simpa [crc_bits] using hc
  | succ m ih =>
    intro c b hc
    have h256 : (256 : Nat) = 2 ^ 8 := by norm_num
    have h1 : c >>> 1 < 256 := by
      rw [Nat.shiftRight_one]
      omega
    have h2 : (c >>> 1) ^^^ 0x8C < 256 := by
      rw [h256] at h1 ⊢
      exact Nat.xor_lt_two_pow h1 (by norm_num)
    simp only [crc_bits]
    split
    · exact ih _ _ h2
    · exact ih _ _ h1

/-- The byte fold of ow_crc stays an 8-bit value. -/
theorem foldl_crc_lt (l : List Nat) :
    ∀ c : Nat, c < 256 → l.foldl (fun crc inbyte => crc_bits 8 crc inbyte) c < 256 := by
  induction l with
  | nil =>
    intro c hc
    simpa using hc
  | cons x xs ih =>
    intro c hc
    simpa using ih _ (crc_bits_lt 8 c x hc)

/-- ow_crc always returns an 8-bit value. -/
theorem ow_crc_lt (l : List Nat) : ow_crc l < 256 :=
  foldl_crc_lt l 0 (by norm_num)

set_option maxRecDepth 4096 in
/-- Feeding the current checksum into the bit loop as the data byte cancels
it to zero. -/
theorem crc_bits_self : ∀ c < 256, crc_bits 8 c c = 0 := by decide

/-- One byte with one more bit, least-significant first. -/
theorem byte_bits_lsb_succ (m b : Nat) :
    byte_bits_lsb (m + 1) b = (b % 2 == 1) :: byte_bits_lsb m (b / 2) := by
  unfold byte_bits_lsb
  rw [List.range_succ_eq_map]
  simp only [List.map_cons, List.map_map, pow_zero, Nat.div_one, List.cons.injEq]
  refine ⟨trivial, ?_⟩
  apply List.map_congr_left
  intro i _
  simp only [Function.comp_apply]
  rw [Nat.div_div_eq_div_mul, ← pow_succ']

/-- The C one-bit CRC step agrees with the specification's wording of it. -/
theorem crc8_step_bit (c b : Nat) :
    crc8_step c (b % 2 == 1) =
      if (c ^^^ b) &&& 0x01 ≠ 0 then (c >>> 1) ^^^ 0x8C else c >>> 1 := by
  unfold crc8_step
  rw [Nat.shiftRight_one, Nat.and_xor_distrib_right, Nat.and_one_is_mod,
    Nat.and_one_is_mod]
  rcases Nat.mod_two_eq_zero_or_one b with hb | hb <;>
    rcases Nat.mod_two_eq_zero_or_one c with hc | hc <;>
      simp [hb, hc]

/-- The inner bit loop of ow_crc is exactly the specification's
least-significant-bit-first fold. -/
theorem crc_bits_eq_spec : ∀ n c b : Nat,
    crc_bits n c b = (byte_bits_lsb n b).foldl crc8_step c := by
  intro n
  induction n with
  | zero =>
    intro c b
    simp [crc_bits, byte_bits_lsb]
  | succ m ih =>
    intro c b
    rw [byte_bits_lsb_succ, List.foldl_cons, crc8_step_bit]
    simp only [crc_bits]
    rw [ih, Nat.shiftRight_one]
    split
    · rfl
    · rfl

/-- C5: ow_crc computes the Dallas/Maxim CRC-8: it equals the
specification's least-significant-bit-first fold (XOR the input bit into
the checksum's low bit, right-shift, XOR with 0x8C exactly when the mixed
bit was 1); it returns 0 for zero length; it reproduces the Maxim
application-note test vector; appending the checksum of a sequence and
folding the whole sequence cancels to 0; and validating a sequence with a
valid trailing CRC byte appended (CRC over all but the last byte, compared
with the last byte) yields that trailing byte. -/
theorem c5_ow_crc_dallas :
    ow_crc [] = 0 ∧
    (∀ l : List Nat, ow_crc l = crc8_of_spec l) ∧
    ow_crc [0x02, 0x1C, 0xB8, 0x01, 0x00, 0x00, 0x00] = 0xA2 ∧
    (∀ S : List Nat, ow_crc (S ++ [ow_crc S]) = 0) ∧
    (∀ S : List Nat,
      ow_crc ((S ++ [ow_crc S]).dropLast) = (S ++ [ow_crc S]).getLastD 0) := by
  refine ⟨rfl, ?_, by decide, ?_, ?_⟩
  · intro l
    unfold ow_crc crc8_of_spec
    have hf : (fun crc inbyte => crc_bits 8 crc inbyte) =
        fun c b => (byte_bits_lsb 8 b).foldl crc8_step c := by
      funext c b
      exact crc_bits_eq_spec 8 c b
    rw [hf]
  · intro S
    show (S ++ [ow_crc S]).foldl (fun crc inbyte => crc_bits 8 crc inbyte) 0 = 0
    rw [List.foldl_append, List.foldl_cons, List.foldl_nil]
    exact crc_bits_self _ (ow_crc_lt S)
  · intro S
    rw [List.dropLast_concat, List.getLastD_concat]

/-- C8: ow_read_resp copies bytes taken from the internal buffer starting
at offset write_len, and the returned count never exceeds the recorded
read_len nor the caller-supplied buffer size. -/
theorem c8_ow_read_resp_bounds (cfg : ow_cfg) (h : ow_handle) (ds : Nat) :
    (ow_read_resp cfg h ds).1 ≤ h.buf.read_len ∧
    (ow_read_resp cfg h ds).1 ≤ ds ∧
    (ow_read_resp cfg h ds).2 =
      (List.range (ow_read_resp cfg h ds).1).map
        (fun i => h.buf.data (h.buf.write_len + i)) := by
  unfold ow_read_resp
  dsimp only
  split_ifs with h1 h2 h3 <;> simp_all <;> omega

/-- C9 counterexample: at the explicit handle whose stored write cursor
(19) lies past the 18-byte internal buffer of cfg0, ow_read_resp returns
length 0, and the claimed inequality write_len + len ≤ sizeof(buf.data)
fails. -/
theorem c9_counter_write_len_past_end :
    (ow_read_resp cfg0 h_wl19 4).1 = 0 ∧
    ¬ (h_wl19.buf.write_len + (ow_read_resp cfg0 h_wl19 4).1 ≤ ow_data_size cfg0) := by
  decide

/-- C9 amended: every read of the internal data array stays in bounds: when
any byte is copied (len > 0) the returned length satisfies
write_len + len ≤ sizeof(buf.data); the same inequality holds whenever
write_len ≤ sizeof(buf.data); and when write_len is at or past the end of
the internal buffer the call returns 0 and copies nothing. -/
theorem c9_ow_read_resp_in_bounds (cfg : ow_cfg) (h : ow_handle) (ds : Nat) :
    ((ow_read_resp cfg h ds).1 > 0 →
      h.buf.write_len + (ow_read_resp cfg h ds).1 ≤ ow_data_size cfg) ∧
    (h.buf.write_len ≤ ow_data_size cfg →
      h.buf.write_len + (ow_read_resp cfg h ds).1 ≤ ow_data_size cfg) ∧
    (h.buf.write_len ≥ ow_data_size cfg → ow_read_resp cfg h ds = (0, [])) := by
  unfold ow_read_resp
  dsimp only
  split_ifs with h1 h2 h3 <;>
    refine ⟨?_, ?_, ?_⟩ <;> intro hx <;>
      simp_all <;> omega

/-- C9 witness: at a concrete in-range call the amended bound holds with a
positive copied length. -/
theorem c9_witness :
    (ow_read_resp cfg0 h_busy 5).1 > 0 ∧
    h_busy.buf.write_len + (ow_read_resp cfg0 h_busy 5).1 ≤ ow_data_size cfg0 :=
  ⟨by decide, (c9_ow_read_resp_in_bounds cfg0 h_busy 5).1 (by decide)⟩

/-- C7: the stop operation stops the timer, drives the bus high (the first
pin action, before the state becomes Idle) and invokes the registered
completion callback with the final error code; reaching Done causes the
next interrupt dispatch to run exactly this stop; and any interrupt
dispatch that returns the driver to Idle leaves the bus released (high) and
has invoked the callback with the final error code. -/
theorem c7_stop_releases_bus (cfg : ow_cfg) (h : ow_handle) (line : Bool) :
    (ow_stop h = ({ h with tim_on := false, bus := true, state := ow_state.idle },
        action.tim_stop :: action.gpio_write true ::
          (if h.has_cb then [action.done_cb h.error] else []))) ∧
    (h.state = ow_state.done → ow_callback cfg h line = ow_stop h) ∧
    ((ow_callback cfg h line).1.state = ow_state.idle →
      (ow_callback cfg h line).1.bus = true ∧
      (h.has_cb = true →
        action.done_cb (ow_callback cfg h line).1.error ∈ (ow_callback cfg h line).2)) := by
  refine ⟨rfl, ?_, ?_⟩
  · intro hd
    simp only [ow_callback, hd]
  · cases hst : h.state
    case idle =>
      intro _
      constructor
      · simp [ow_callback, hst, ow_stop, ow_write_bit]
      · intro hcb
        simp [ow_callback, hst, ow_stop, ow_write_bit, hcb]
    case done =>
      intro _
      constructor
      · simp [ow_callback, hst, ow_stop, ow_write_bit]
      · intro hcb
        simp [ow_callback, hst, ow_stop, ow_write_bit, hcb]
    case xfer =>
      simp only [ow_callback, hst]
      rcases hph : h.buf.bit_ph with _ | _ | _ | _ | _ | _ | _ | _ | n <;>
        simp only [ow_state_xfer, hph, ow_stop, ow_write_bit] <;>
          (try split_ifs) <;> intro hidle <;> simp_all
    case search =>
      simp only [ow_callback, hst]
      rcases hph : h.buf.bit_ph with _ | _ | _ | _ | _ | _ | _ | _ | _ | _ | _ | _ | _ | n <;>
        simp only [ow_state_search, hph, ow_stop, ow_write_bit] <;>
          (try split_ifs) <;> intro hidle <;> simp_all

/-- C7 witness: at the concrete completed handle h_done, the next dispatch
is exactly the stop operation and leaves the bus released. -/
theorem c7_witness :
    ow_callback cfg0 h_done true = ow_stop h_done ∧
    (ow_callback cfg0 h_done true).1.bus = true :=
  ⟨(c7_stop_releases_bus cfg0 h_done true).2.1 rfl,
   ((c7_stop_releases_bus cfg0 h_done true).2.2 (by decide)).1⟩

/-- C6 counterexample: at the explicit phase-2 transfer state whose cursors
say write_len = 0 and read_len = 1, and with the presence pulse observed
(bus sampled low), the step advances to phase 3 — not to the read phase 5
the claim prescribes for write_len = 0, read_len > 0 — and the driver keeps
transferring. -/
theorem c6_counter_phase2_dispatch :
    h_ph2.state = ow_state.xfer ∧ h_ph2.buf.bit_ph = 2 ∧
    h_ph2.buf.write_len = 0 ∧ h_ph2.buf.read_len = 1 ∧
    (ow_callback cfg0 h_ph2 false).1.buf.bit_ph = 3 ∧
    ¬ (ow_callback cfg0 h_ph2 false).1.buf.bit_ph = 5 ∧
    (ow_callback cfg0 h_ph2 false).1.state = ow_state.xfer := by
  decide

/-- C6 amended: while DriverState == Transferring, the interrupt step at
reset phase 2 samples the bus: if it reads high (no presence pulse) the
transfer fails with ResetFailed and stops, releasing the bus; otherwise it
programs the next timer period and advances unconditionally to phase 3 (the
write phase) — the dispatch to the read phase or to Done happens only later,
at the end of the write phase. -/
theorem c6_phase2_presence (cfg : ow_cfg) (h : ow_handle) (line : Bool)
    (hs : h.state = ow_state.xfer) (hph : h.buf.bit_ph = 2) :
    (line = true →
      ow_callback cfg h line =
        ((ow_stop { h with error := ow_err.err_reset }).1,
          action.gpio_read :: (ow_stop { h with error := ow_err.err_reset }).2)) ∧
    (line = false →
      ow_callback cfg h line =
        ({ h with tim_arr := cfg.OW_TIM_RST - 1
                  buf := { h.buf with bit_ph := 3 } },
          [action.gpio_read, action.tim_set_arr (cfg.OW_TIM_RST - 1)])) := by
  constructor <;> intro hl <;> subst hl <;>
    simp [ow_callback, hs, ow_state_xfer, hph, ow_stop, ow_write_bit]

/-- C6 witness: the amended phase-2 behaviour at the concrete handle h_ph2
with the presence pulse observed. -/
theorem c6_witness :
    ow_callback cfg0 h_ph2 false =
      ({ h_ph2 with tim_arr := cfg0.OW_TIM_RST - 1
                    buf := { h_ph2.buf with bit_ph := 3 } },
        [action.gpio_read, action.tim_set_arr (cfg0.OW_TIM_RST - 1)]) :=
  (c6_phase2_presence cfg0 h_ph2 false rfl rfl).2 rfl

/-- C1 counterexample: with a transfer in flight (state = XFER) ow_write_any
returns Busy but resets the driver state to Idle and stops the timer — the
in-flight transaction state is mutated; and from Idle an oversized length
returns LengthInvalid while performing a bus-level GPIO drive (the release),
so the GPIO call count is not zero. -/
theorem c1_counter_busy_mutates :
    ((ow_write_any cfg0 h_busy true 0x44 Option.none 0).1 = ow_err.err_busy ∧
      h_busy.state = ow_state.xfer ∧ h_busy.tim_on = true ∧
      (ow_write_any cfg0 h_busy true 0x44 Option.none 0).2.1.state = ow_state.idle ∧
      (ow_write_any cfg0 h_busy true 0x44 Option.none 0).2.1.tim_on = false) ∧
    ((ow_write_any cfg0 h0 true 0x44 Option.none 9).1 = ow_err.err_len ∧
      ¬ gpio_writes (ow_write_any cfg0 h0 true 0x44 Option.none 9).2.2 = []) := by
  decide

/-- C1 amended: a request issued while the driver is not Idle returns Busy
— except that the parameter validations run first, so a by-index request
whose length is oversized still returns LengthInvalid and one whose ROM
index is invalid (no devices discovered, or index at or past the
discovered count) returns AddressInvalid even while busy; a by-index
request with an in-range index behaves like the others.  On every one of
these rejection paths the call, instead of leaving the transaction state
untouched, runs the stop operation on the handle (timer stopped, bus
driven high, state reset to Idle, completion callback fired with the
error); in particular a request whose length exceeds OW_MAX_DATA_LEN
returns LengthInvalid after that stop operation, whose only bus-level
action is the single release drive (gpio write high). -/
theorem c1_busy_and_len (cfg : ow_cfg) (h : ow_handle) (line : Bool)
    (fn idx len : Nat) (d : Option (Nat → Nat))
    (hb : h.state ≠ ow_state.idle) (hidx : idx < h.rom_id_found) :
    (ow_update_rom_id cfg h line =
      (ow_err.err_busy, ow_stop { h with error := ow_err.err_busy })) ∧
    (len ≤ cfg.OW_MAX_DATA_LEN →
      ow_write_any cfg h line fn d len =
        (ow_err.err_busy, ow_stop { h with error := ow_err.err_busy }) ∧
      ow_read_any cfg h line fn len =
        (ow_err.err_busy, ow_stop { h with error := ow_err.err_busy }) ∧
      ow_write_by_id cfg h line idx fn d len =
        (ow_err.err_busy, ow_stop { h with error := ow_err.err_busy }) ∧
      ow_read_by_id cfg h line idx fn len =
        (ow_err.err_busy, ow_stop { h with error := ow_err.err_busy })) ∧
    (∀ h2 : ow_handle, len > cfg.OW_MAX_DATA_LEN →
      ow_write_any cfg h2 line fn d len =
        (ow_err.err_len, ow_stop { h2 with error := ow_err.err_len }) ∧
      ow_read_any cfg h2 line fn len =
        (ow_err.err_len, ow_stop { h2 with error := ow_err.err_len }) ∧
      ow_write_by_id cfg h2 line idx fn d len =
        (ow_err.err_len, ow_stop { h2 with error := ow_err.err_len }) ∧
      ow_read_by_id cfg h2 line idx fn len =
        (ow_err.err_len, ow_stop { h2 with error := ow_err.err_len }) ∧
      gpio_writes (ow_stop { h2 with error := ow_err.err_len }).2 =
        [action.gpio_write true]) ∧
    (∀ h3 : ow_handle, len ≤ cfg.OW_MAX_DATA_LEN →
      (h3.rom_id_found = 0 ∨ idx ≥ h3.rom_id_found) →
      ow_write_by_id cfg h3 line idx fn d len =
        (ow_err.err_rom_id, ow_stop { h3 with error := ow_err.err_rom_id }) ∧
      ow_read_by_id cfg h3 line idx fn len =
        (ow_err.err_rom_id, ow_stop { h3 with error := ow_err.err_rom_id })) := by
  have hrom : ¬ (h.rom_id_found = 0 ∨ idx ≥ h.rom_id_found) := by omega
  refine ⟨?_, ?_, ?_, ?_⟩
  · simp [ow_update_rom_id, ow_start, hb]
  · intro hlen
    refine ⟨?_, ?_, ?_, ?_⟩ <;>
      simp [ow_write_any, ow_read_any, ow_write_by_id, ow_read_by_id,
        ow_start, hb, hrom, Nat.not_lt.mpr hlen]
  · intro h2 hlen
    refine ⟨?_, ?_, ?_, ?_, ?_⟩ <;>
      simp [ow_write_any, ow_read_any, ow_write_by_id, ow_read_by_id,
        hlen, gpio_writes, ow_stop, ow_write_bit, is_gpio]
  · intro h3 hlen hrom3
    refine ⟨?_, ?_⟩ <;>
      simp [ow_write_by_id, ow_read_by_id, hrom3, Nat.not_lt.mpr hlen]

/-- C1 witness: the amended busy behaviour at the concrete in-flight handle
h_busy_dev, and the validation-first behaviour of a by-index request with
an invalid index on the concrete in-flight handle h_busy (no devices
discovered). -/
theorem c1_witness :
    ow_update_rom_id cfg0 h_busy_dev true =
      (ow_err.err_busy, ow_stop { h_busy_dev with error := ow_err.err_busy }) ∧
    ow_write_by_id cfg0 h_busy true 0 0x44 Option.none 0 =
      (ow_err.err_rom_id, ow_stop { h_busy with error := ow_err.err_rom_id }) := by
  have t := c1_busy_and_len cfg0 h_busy_dev true 0x44 0 0 Option.none
    (by decide) (by decide)
  exact ⟨t.1, (t.2.2.2 h_busy (by decide) (by decide)).1⟩

/-- C2 (refutation of the replay rule on the code): h_pass_end is the state
at the last micro-step of a search pass that chose bit 1 at position 2
(search.rom_id bit 1 set) and recorded a deeper branch at position 5.  The
pass-end step clears the candidate scratch buffer, so when the next pass
reaches a discrepancy at position 2 (< last_discrepancy = 5) the engine
reads the cleared buffer and chooses 0 (OW_VAL_0) instead of replaying the
previously chosen 1 (OW_VAL_1). -/
theorem c2_replay_reads_cleared_scratch :
    h_pass_end.search.rom_id 0 &&& 0x02 = 0x02 ∧
    (run_cb cfg0 h_pass_end (lines_replay.take 1)).search.rom_id 0 = 0 ∧
    (run_cb cfg0 h_pass_end (lines_replay.take 1)).state = ow_state.search ∧
    (run_cb cfg0 h_pass_end lines_replay).buf.bit_ph = 11 ∧
    (run_cb cfg0 h_pass_end lines_replay).buf.bit_idx = 1 ∧
    (run_cb cfg0 h_pass_end lines_replay).search.last_discrepancy = 5 ∧
    (run_cb cfg0 h_pass_end lines_replay).search.val = OW_VAL_0 ∧
    ¬ (run_cb cfg0 h_pass_end lines_replay).search.val = OW_VAL_1 := by
  decide

/-- Phase-7 search step (sample the address bit, reading 1) on an explicit
handle. -/
theorem sstep7_one (cfg : ow_cfg) (data srom : Nat → Nat) (rom : Nat → Nat → Nat)
    (bidx byidx wl rl found ld lz flag sval arr : Nat) (err : ow_err)
    (bus ton hcb : Bool) :
    ow_callback cfg
      ⟨⟨data, 7, bidx, byidx, wl, rl⟩, ow_state.search, err, rom, found,
        ⟨sval, ld, lz, flag, srom⟩, bus, arr, ton, hcb⟩ true =
    (⟨⟨data, 8, bidx, byidx, wl, rl⟩, ow_state.search, err, rom, found,
        ⟨OW_VAL_1, ld, lz, flag, srom⟩, bus,
        cfg.OW_TIM_READ_HIGH - 1, ton, hcb⟩,
      [action.tim_set_arr (cfg.OW_TIM_READ_HIGH - 1), action.gpio_read]) := rfl

/-- Phase-7 search step (sample the address bit, reading 0) on an explicit
handle. -/
theorem sstep7_zero (cfg : ow_cfg) (data srom : Nat → Nat) (rom : Nat → Nat → Nat)
    (bidx byidx wl rl found ld lz flag sval arr : Nat) (err : ow_err)
    (bus ton hcb : Bool) :
    ow_callback cfg
      ⟨⟨data, 7, bidx, byidx, wl, rl⟩, ow_state.search, err, rom, found,
        ⟨sval, ld, lz, flag, srom⟩, bus, arr, ton, hcb⟩ false =
    (⟨⟨data, 8, bidx, byidx, wl, rl⟩, ow_state.search, err, rom, found,
        ⟨OW_VAL_DIFF, ld, lz, flag, srom⟩, bus,
        cfg.OW_TIM_READ_HIGH - 1, ton, hcb⟩,
      [action.tim_set_arr (cfg.OW_TIM_READ_HIGH - 1), action.gpio_read]) := rfl

/-- Phase-8 search step (pull low for the complement slot). -/
theorem sstep8 (cfg : ow_cfg) (data srom : Nat → Nat) (rom : Nat → Nat → Nat)
    (bidx byidx wl rl found ld lz flag sval arr : Nat) (err : ow_err)
    (bus ton hcb : Bool) (line : Bool) :
    ow_callback cfg
      ⟨⟨data, 8, bidx, byidx, wl, rl⟩, ow_state.search, err, rom, found,
        ⟨sval, ld, lz, flag, srom⟩, bus, arr, ton, hcb⟩ line =
    (⟨⟨data, 9, bidx, byidx, wl, rl⟩, ow_state.search, err, rom, found,
        ⟨sval, ld, lz, flag, srom⟩, false, cfg.OW_TIM_READ_LOW - 1, ton, hcb⟩,
      [action.tim_set_arr (cfg.OW_TIM_READ_LOW - 1), action.gpio_write false]) := rfl

/-- Phase-9 search step (release before sampling the complement). -/
theorem sstep9 (cfg : ow_cfg) (data srom : Nat → Nat) (rom : Nat → Nat → Nat)
    (bidx byidx wl rl found ld lz flag sval arr : Nat) (err : ow_err)
    (bus ton hcb : Bool) (line : Bool) :
    ow_callback cfg
      ⟨⟨data, 9, bidx, byidx, wl, rl⟩, ow_state.search, err, rom, found,
        ⟨sval, ld, lz, flag, srom⟩, bus, arr, ton, hcb⟩ line =
    (⟨⟨data, 10, bidx, byidx, wl, rl⟩, ow_state.search, err, rom, found,
        ⟨sval, ld, lz, flag, srom⟩, true, cfg.OW_TIM_READ_SAMPLE - 1, ton, hcb⟩,
      [action.tim_set_arr (cfg.OW_TIM_READ_SAMPLE - 1), action.gpio_write true]) := rfl

/-- Phase-10 search step when the address bit read 1 and the complement
reads 1 as well (no device responded): abort via the stop operation with
AddressInvalid. -/
theorem sstep10_both_one (cfg : ow_cfg) (data srom : Nat → Nat)
    (rom : Nat → Nat → Nat)
    (bidx byidx wl rl ld lz flag found arr : Nat) (err : ow_err)
    (bus ton hcb : Bool) :
    ow_callback cfg
      ⟨⟨data, 10, bidx, byidx, wl, rl⟩, ow_state.search, err, rom, found,
        ⟨OW_VAL_1, ld, lz, flag, srom⟩, bus, arr, ton, hcb⟩ true =
    (⟨⟨data, 11, bidx, byidx, wl, rl⟩, ow_state.idle, ow_err.err_rom_id, rom,
        found, ⟨OW_VAL_ERR, ld, lz, flag, srom⟩, true,
        cfg.OW_TIM_READ_HIGH - 1, false, hcb⟩,
      action.tim_set_arr (cfg.OW_TIM_READ_HIGH - 1) :: action.gpio_read ::
        action.tim_stop :: action.gpio_write true ::
          (if hcb then [action.done_cb ow_err.err_rom_id] else [])) := by
  have hv : OW_VAL_1 ||| OW_VAL_0 = OW_VAL_ERR := rfl
  simp [ow_callback, ow_state_search, hv, ow_stop, ow_write_bit,
    OW_VAL_DIFF, OW_VAL_ERR]

/-- Phase-10 search step when the address bit read 1 and the complement
reads 0: the devices agree on 1, no resolution needed. -/
theorem sstep10_one_zero (cfg : ow_cfg) (data srom : Nat → Nat)
    (rom : Nat → Nat → Nat)
    (bidx byidx wl rl ld lz flag found arr : Nat) (err : ow_err)
    (bus ton hcb : Bool) :
    ow_callback cfg
      ⟨⟨data, 10, bidx, byidx, wl, rl⟩, ow_state.search, err, rom, found,
        ⟨OW_VAL_1, ld, lz, flag, srom⟩, bus, arr, ton, hcb⟩ false =
    (⟨⟨data, 11, bidx, byidx, wl, rl⟩, ow_state.search, err, rom, found,
        ⟨OW_VAL_1, ld, lz, flag, srom⟩, bus, cfg.OW_TIM_READ_HIGH - 1, ton, hcb⟩,
      [action.tim_set_arr (cfg.OW_TIM_READ_HIGH - 1), action.gpio_read]) := rfl

/-- Phase-10 search step when the address bit read 0 and the complement
reads 1: the devices agree on 0. -/
theorem sstep10_zero_one (cfg : ow_cfg) (data srom : Nat → Nat)
    (rom : Nat → Nat → Nat)
    (bidx byidx wl rl ld lz flag found arr : Nat) (err : ow_err)
    (bus ton hcb : Bool) :
    ow_callback cfg
      ⟨⟨data, 10, bidx, byidx, wl, rl⟩, ow_state.search, err, rom, found,
        ⟨OW_VAL_DIFF, ld, lz, flag, srom⟩, bus, arr, ton, hcb⟩ true =
    (⟨⟨data, 11, bidx, byidx, wl, rl⟩, ow_state.search, err, rom, found,
        ⟨OW_VAL_0, ld, lz, flag, srom⟩, bus, cfg.OW_TIM_READ_HIGH - 1, ton, hcb⟩,
      [action.tim_set_arr (cfg.OW_TIM_READ_HIGH - 1), action.gpio_read]) := by
  have hv : OW_VAL_DIFF ||| OW_VAL_0 = OW_VAL_0 := rfl
  simp [ow_callback, ow_state_search, hv, OW_VAL_DIFF, OW_VAL_ERR, OW_VAL_0]

/-- Phase-10 search step at a discrepancy (both reads 0) whose bit position
equals last_discrepancy: choose 1, leave last_zero alone. -/
theorem sstep10_diff_eq (cfg : ow_cfg) (data srom : Nat → Nat)
    (rom : Nat → Nat → Nat)
    (bidx byidx wl rl ld lz flag found arr : Nat) (err : ow_err)
    (bus ton hcb : Bool) (hld : bidx + 1 = ld) :
    ow_callback cfg
      ⟨⟨data, 10, bidx, byidx, wl, rl⟩, ow_state.search, err, rom, found,
        ⟨OW_VAL_DIFF, ld, lz, flag, srom⟩, bus, arr, ton, hcb⟩ false =
    (⟨⟨data, 11, bidx, byidx, wl, rl⟩, ow_state.search, err, rom, found,
        ⟨OW_VAL_1, ld, lz, flag, srom⟩, bus, cfg.OW_TIM_READ_HIGH - 1, ton, hcb⟩,
      [action.tim_set_arr (cfg.OW_TIM_READ_HIGH - 1), action.gpio_read]) := by
  subst hld
  simp [ow_callback, ow_state_search, OW_VAL_DIFF, OW_VAL_0, OW_VAL_1, OW_VAL_ERR]

/-- Phase-10 search step at a discrepancy (both reads 0) whose bit position
lies past last_discrepancy: choose 0 and record the position in last_zero. -/
theorem sstep10_diff_gt (cfg : ow_cfg) (data srom : Nat → Nat)
    (rom : Nat → Nat → Nat)
    (bidx byidx wl rl ld lz flag found arr : Nat) (err : ow_err)
    (bus ton hcb : Bool) (hld : ld < bidx + 1) :
    ow_callback cfg
      ⟨⟨data, 10, bidx, byidx, wl, rl⟩, ow_state.search, err, rom, found,
        ⟨OW_VAL_DIFF, ld, lz, flag, srom⟩, bus, arr, ton, hcb⟩ false =
    (⟨⟨data, 11, bidx, byidx, wl, rl⟩, ow_state.search, err, rom, found,
        ⟨OW_VAL_0, ld, bidx + 1, flag, srom⟩, bus, cfg.OW_TIM_READ_HIGH - 1, ton,
        hcb⟩,
      [action.tim_set_arr (cfg.OW_TIM_READ_HIGH - 1), action.gpio_read]) := by
  simp [ow_callback, ow_state_search, OW_VAL_DIFF, OW_VAL_0, OW_VAL_1, OW_VAL_ERR,
    show ¬ (bidx + 1 < ld) by omega, show ¬ (bidx + 1 = ld) by omega]

/-- Phase-11 search step when the chosen value is 1: drive the write-1 slot
low and OR the bit into the candidate ROM scratch. -/
theorem sstep11_one (cfg : ow_cfg) (data srom : Nat → Nat)
    (rom : Nat → Nat → Nat)
    (bidx byidx wl rl ld lz flag found arr : Nat) (err : ow_err)
    (bus ton hcb : Bool) (line : Bool) :
    ow_callback cfg
      ⟨⟨data, 11, bidx, byidx, wl, rl⟩, ow_state.search, err, rom, found,
        ⟨OW_VAL_1, ld, lz, flag, srom⟩, bus, arr, ton, hcb⟩ line =
    (⟨⟨data, 12, bidx, byidx, wl, rl⟩, ow_state.search, err, rom, found,
        ⟨OW_VAL_1, ld, lz, flag,
          upd srom (bidx / 8) (srom (bidx / 8) ||| (1 <<< (bidx % 8)))⟩, false,
        cfg.OW_TIM_WRITE_LOW - 1, ton, hcb⟩,
      [action.tim_set_arr (cfg.OW_TIM_WRITE_LOW - 1), action.gpio_write false]) := rfl

/-- Phase-11 search step when the chosen value is not 1: drive the write-0
slot low, leaving the candidate ROM scratch unchanged. -/
theorem sstep11_not_one (cfg : ow_cfg) (data srom : Nat → Nat)
    (rom : Nat → Nat → Nat)
    (bidx byidx wl rl ld lz flag found sval arr : Nat) (err : ow_err)
    (bus ton hcb : Bool) (line : Bool) (hv : sval ≠ OW_VAL_1) :
    ow_callback cfg
      ⟨⟨data, 11, bidx, byidx, wl, rl⟩, ow_state.search, err, rom, found,
        ⟨sval, ld, lz, flag, srom⟩, bus, arr, ton, hcb⟩ line =
    (⟨⟨data, 12, bidx, byidx, wl, rl⟩, ow_state.search, err, rom, found,
        ⟨sval, ld, lz, flag, srom⟩, false, cfg.OW_TIM_WRITE_HIGH - 1, ton, hcb⟩,
      [action.tim_set_arr (cfg.OW_TIM_WRITE_HIGH - 1), action.gpio_write false]) := by
  simp [ow_callback, ow_state_search, hv, ow_write_bit]

/-- C3: triplet resolution during a search pass, for any handle entering
the triplet at phase 7 with arbitrary field values (bit position
n = bit_idx + 1, 1-based).  Reading bit b1 and complement b2: both 1 aborts
with AddressInvalid via the stop operation; disagreeing reads choose the
matching bit; both 0 with n = last_discrepancy chooses 1; both 0 with
n > last_discrepancy chooses 0 and records n into last_zero; every
non-abort case reaches the write-back phase 11 with bit_idx unchanged, and
the phase-11 step drives the chosen bit's write slot onto the bus and ORs
the bit into the candidate ROM scratch exactly when the chosen value
is 1. -/
theorem c3_triplet_resolution (cfg : ow_cfg) (data srom : Nat → Nat)
    (rom : Nat → Nat → Nat) (bidx byidx wl rl found ld lz flag sval arr : Nat)
    (err : ow_err) (bus ton hcb : Bool) (b1 x y b2 z : Bool) :
    let h : ow_handle :=
      ⟨⟨data, 7, bidx, byidx, wl, rl⟩, ow_state.search, err, rom, found,
        ⟨sval, ld, lz, flag, srom⟩, bus, arr, ton, hcb⟩
    let h10 : ow_handle :=
      (ow_callback cfg (ow_callback cfg (ow_callback cfg
        (ow_callback cfg h b1).1 x).1 y).1 b2).1
    let h11 : ow_handle :=
      ⟨⟨data, 11, bidx, byidx, wl, rl⟩, ow_state.search, err, rom, found,
        ⟨sval, ld, lz, flag, srom⟩, bus, arr, ton, hcb⟩
    (b1 = true → b2 = true →
      h10.error = ow_err.err_rom_id ∧ h10.state = ow_state.idle ∧
      h10.bus = true ∧ h10.tim_on = false) ∧
    (b1 = true → b2 = false →
      h10.search.val = OW_VAL_1 ∧ h10.state = ow_state.search ∧
      h10.error = err ∧ h10.search.last_zero = lz ∧
      h10.buf.bit_ph = 11 ∧ h10.buf.bit_idx = bidx) ∧
    (b1 = false → b2 = true →
      h10.search.val = OW_VAL_0 ∧ h10.state = ow_state.search ∧
      h10.error = err ∧ h10.search.last_zero = lz ∧
      h10.buf.bit_ph = 11 ∧ h10.buf.bit_idx = bidx) ∧
    (b1 = false → b2 = false → bidx + 1 = ld →
      h10.search.val = OW_VAL_1 ∧ h10.state = ow_state.search ∧
      h10.search.last_zero = lz ∧
      h10.buf.bit_ph = 11 ∧ h10.buf.bit_idx = bidx) ∧
    (b1 = false → b2 = false → bidx + 1 > ld →
      h10.search.val = OW_VAL_0 ∧ h10.state = ow_state.search ∧
      h10.search.last_zero = bidx + 1 ∧
      h10.buf.bit_ph = 11 ∧ h10.buf.bit_idx = bidx) ∧
    (sval = OW_VAL_1 →
      (ow_callback cfg h11 z).1.search.rom_id =
        upd srom (bidx / 8) (srom (bidx / 8) ||| (1 <<< (bidx % 8))) ∧
      (ow_callback cfg h11 z).1.tim_arr = cfg.OW_TIM_WRITE_LOW - 1 ∧
      (ow_callback cfg h11 z).2 =
        [action.tim_set_arr (cfg.OW_TIM_WRITE_LOW - 1), action.gpio_write false] ∧
      (ow_callback cfg h11 z).1.buf.bit_ph = 12 ∧
      (ow_callback cfg h11 z).1.buf.bit_idx = bidx) ∧
    (sval ≠ OW_VAL_1 →
      (ow_callback cfg h11 z).1.search.rom_id = srom ∧
      (ow_callback cfg h11 z).1.tim_arr = cfg.OW_TIM_WRITE_HIGH - 1 ∧
      (ow_callback cfg h11 z).2 =
        [action.tim_set_arr (cfg.OW_TIM_WRITE_HIGH - 1), action.gpio_write false] ∧
      (ow_callback cfg h11 z).1.buf.bit_ph = 12 ∧
      (ow_callback cfg h11 z).1.buf.bit_idx = bidx) := by
  refine ⟨?_, ?_, ?_, ?_, ?_, ?_, ?_⟩
  · intro hb1 hb2
    subst hb1
    subst hb2
    simp only [sstep7_one, sstep8, sstep9, sstep10_both_one]
    simp
  · intro hb1 hb2
    subst hb1
    subst hb2
    simp only [sstep7_one, sstep8, sstep9, sstep10_one_zero]
    simp
  · intro hb1 hb2
    subst hb1
    subst hb2
    simp only [sstep7_zero, sstep8, sstep9, sstep10_zero_one]
    simp
  · intro hb1 hb2 hld
    subst hb1
    subst hb2
    subst hld
    simp only [sstep7_zero, sstep8, sstep9, sstep10_diff_eq]
    simp
  · intro hb1 hb2 hld
    subst hb1
    subst hb2
    have hld' : ld < bidx + 1 := hld
    simp only [sstep7_zero, sstep8, sstep9, hld', sstep10_diff_gt]
    simp
  · intro hv
    subst hv
    simp only [sstep11_one]
    simp
  · intro hv
    simp only [sstep11_not_one _ _ _ _ _ _ _ _ _ _ _ _ _ _ _ _ _ _ _ hv]
    simp

/-- C3 witness: a concrete discrepancy triplet (both reads 0) at bit
position 3 with last_discrepancy = 3 resolves to the chosen value 1. -/
theorem c3_witness :
    (ow_callback cfg0 (ow_callback cfg0 (ow_callback cfg0 (ow_callback cfg0
      ⟨⟨fun _ => 0, 7, 2, 0, 0, 0⟩, ow_state.search, ow_err.err_none,
        fun _ _ => 0, 0, ⟨0, 3, 0, 0, fun _ => 0⟩, true, 0, true, false⟩
      false).1 false).1 false).1 false).1.search.val = OW_VAL_1 := by
  have t := c3_triplet_resolution cfg0 (fun _ => 0) (fun _ => 0) (fun _ _ => 0)
    2 0 0 0 0 3 0 0 0 0 ow_err.err_none true true false false false false
    false false
  exact (t.2.2.2.1 rfl rfl rfl).1

/-- C4: the end of a 64-triplet search pass (phase 12, bit_idx 63, any
other field values): the candidate is appended to the discovered list and
the count incremented exactly when ow_crc over its first 7 bytes matches
its trailing byte; a mismatching candidate is discarded with the error slot
untouched while the discrepancy bookkeeping still happens
(last_discrepancy := last_zero, last_zero := 0, scratch cleared); the state
becomes Done exactly when the new last_discrepancy is 0 or the device count
reached OW_MAX_DEVICE, and otherwise a new pass starts from the reset phase
with the SEARCH ROM command re-armed. -/
theorem c4_pass_end (cfg : ow_cfg) (data srom : Nat → Nat) (rom : Nat → Nat → Nat)
    (byidx wl rl found ld lz flag sval arr : Nat) (err : ow_err)
    (bus ton hcb : Bool) (line : Bool) :
    let h : ow_handle :=
      ⟨⟨data, 12, 63, byidx, wl, rl⟩, ow_state.search, err, rom, found,
        ⟨sval, ld, lz, flag, srom⟩, bus, arr, ton, hcb⟩
    let h' := (ow_callback cfg h line).1
    ((ow_crc ((List.range 7).map srom) = srom 7 →
      h'.rom_id = (fun d => if d = found then srom else rom d) ∧
      h'.rom_id_found = found + 1) ∧
    (¬ ow_crc ((List.range 7).map srom) = srom 7 →
      h'.rom_id = rom ∧ h'.rom_id_found = found)) ∧
    h'.error = err ∧
    h'.search.last_discrepancy = lz ∧
    h'.search.last_zero = 0 ∧
    h'.search.rom_id = (fun _ => 0) ∧
    h'.bus = true ∧
    (h'.state = ow_state.done ↔
      (lz = 0 ∨ found +
        (if ow_crc ((List.range 7).map srom) = srom 7 then 1 else 0) =
          cfg.OW_MAX_DEVICE)) ∧
    (h'.state = ow_state.search →
      h'.buf.bit_ph = 0 ∧ h'.buf.bit_idx = 0 ∧
      h'.buf.data 0 = OW_CMD_SEARCH_ROM) := by
  by_cases hcrc : ow_crc ((List.range 7).map srom) = srom 7
  · by_cases hdone : lz = 0 ∨ found + 1 = cfg.OW_MAX_DEVICE
    · simp [ow_callback, ow_state_search, ow_write_bit, hcrc, hdone, upd]
    · simp [ow_callback, ow_state_search, ow_write_bit, hcrc, hdone, upd]
  · by_cases hdone : lz = 0 ∨ found = cfg.OW_MAX_DEVICE
    · simp [ow_callback, ow_state_search, ow_write_bit, hcrc, hdone, upd]
    · simp [ow_callback, ow_state_search, ow_write_bit, hcrc, hdone, upd]

/-- C4 witness: a concrete pass end whose candidate fails the CRC check
(bytes 02 00 00 00 00 00 00, trailing byte 00): the count stays 1 and
last_discrepancy takes the recorded last_zero = 5. -/
theorem c4_witness :
    (ow_callback cfg0
      ⟨⟨fun _ => 0, 12, 63, 0, 0, 0⟩, ow_state.search, ow_err.err_none,
        fun _ _ => 0, 1, ⟨1, 2, 5, 0, fun i => if i = 0 then 2 else 0⟩,
        true, 0, true, false⟩ false).1.rom_id_found = 1 ∧
    (ow_callback cfg0
      ⟨⟨fun _ => 0, 12, 63, 0, 0, 0⟩, ow_state.search, ow_err.err_none,
        fun _ _ => 0, 1, ⟨1, 2, 5, 0, fun i => if i = 0 then 2 else 0⟩,
        true, 0, true, false⟩ false).1.search.last_discrepancy = 5 := by
  have t := c4_pass_end cfg0 (fun _ => 0) (fun i => if i = 0 then 2 else 0)
    (fun _ _ => 0) 0 0 0 1 2 5 0 1 0 ow_err.err_none true true false false
  exact ⟨(t.1.2 (by decide)).2, t.2.2.1⟩

/-- A single interrupt dispatch changes the discovered-device count only at
the end of a search pass, by exactly one, and only when the candidate's CRC
check passed. -/
theorem cb_found_step (cfg : ow_cfg) (h : ow_handle) (line : Bool) :
    (ow_callback cfg h line).1.rom_id_found = h.rom_id_found ∨
      ((ow_callback cfg h line).1.rom_id_found = h.rom_id_found + 1 ∧
        ow_crc ((List.range 7).map h.search.rom_id) = h.search.rom_id 7) := by
  cases hst : h.state
  case idle =>
    simp only [ow_callback, hst, ow_stop, ow_write_bit]
    left
    trivial
  case done =>
    simp only [ow_callback, hst, ow_stop, ow_write_bit]
    left
    trivial
  case xfer =>
    simp only [ow_callback, hst]
    rcases hph : h.buf.bit_ph with _ | _ | _ | _ | _ | _ | _ | _ | n <;>
      simp only [ow_state_xfer, hph, ow_stop, ow_write_bit] <;>
        (try split_ifs) <;> (left ; trivial)
  case search =>
    simp only [ow_callback, hst]
    rcases hph : h.buf.bit_ph with _ | _ | _ | _ | _ | _ | _ | _ | _ | _ | _ | _ | _ | n <;>
      simp only [ow_state_search, hph, ow_stop, ow_write_bit] <;>
        (try split_ifs) <;> (try (left ; trivial))
    all_goals (right ; refine ⟨rfl, ?_⟩ ; assumption)

/-- A single interrupt dispatch preserves the device-count invariant. -/
theorem cb_found_inv (cfg : ow_cfg) (h : ow_handle) (line : Bool)
    (hinv : rom_inv cfg h) : rom_inv cfg (ow_callback cfg h line).1 := by
  obtain ⟨h1, h2⟩ := hinv
  cases hst : h.state
  case idle =>
    simp only [ow_callback, hst, ow_stop, ow_write_bit]
    exact ⟨h1, by simp⟩
  case done =>
    simp only [ow_callback, hst, ow_stop, ow_write_bit]
    exact ⟨h1, by simp⟩
  case xfer =>
    simp only [ow_callback, hst]
    rcases hph : h.buf.bit_ph with _ | _ | _ | _ | _ | _ | _ | _ | n <;>
      simp only [ow_state_xfer, hph, ow_stop, ow_write_bit] <;>
        (try split_ifs) <;> constructor <;> simp_all [rom_inv]
  case search =>
    have h3 := h2 hst
    simp only [ow_callback, hst]
    rcases hph : h.buf.bit_ph with _ | _ | _ | _ | _ | _ | _ | _ | _ | _ | _ | _ | _ | n <;>
      simp only [ow_state_search, hph, ow_stop, ow_write_bit] <;>
        (try split_ifs) <;> constructor <;> simp_all [rom_inv] <;> omega

set_option maxHeartbeats 2000000 in
/-- C10: in the multi-device configuration the device-count invariant
(rom_id_found never exceeds OW_MAX_DEVICE, and while a search is in flight
rom_id_found < OW_MAX_DEVICE, so the append rom_id[rom_id_found] indexes
within the OW_MAX_DEVICE-element array) is established by ow_update_rom_id,
preserved by every request operation and by every interrupt dispatch; a
dispatch increments the count by at most one and only after a CRC-valid
candidate. -/
theorem c10_found_invariant (cfg : ow_cfg) (h : ow_handle) (line : Bool)
    (fn idx len : Nat) (d : Option (Nat → Nat))
    (hm : 1 ≤ cfg.OW_MAX_DEVICE) (hinv : rom_inv cfg h) :
    rom_inv cfg (ow_update_rom_id cfg h line).2.1 ∧
    rom_inv cfg (ow_write_any cfg h line fn d len).2.1 ∧
    rom_inv cfg (ow_read_any cfg h line fn len).2.1 ∧
    rom_inv cfg (ow_write_by_id cfg h line idx fn d len).2.1 ∧
    rom_inv cfg (ow_read_by_id cfg h line idx fn len).2.1 ∧
    rom_inv cfg (ow_callback cfg h line).1 ∧
    ((ow_callback cfg h line).1.rom_id_found = h.rom_id_found ∨
      ((ow_callback cfg h line).1.rom_id_found = h.rom_id_found + 1 ∧
        ow_crc ((List.range 7).map h.search.rom_id) = h.search.rom_id 7)) ∧
    (h.state = ow_state.search → h.rom_id_found < cfg.OW_MAX_DEVICE) := by
  obtain ⟨h1, h2⟩ := hinv
  refine ⟨?_, ?_, ?_, ?_, ?_, cb_found_inv cfg h line ⟨h1, h2⟩,
    cb_found_step cfg h line, h2⟩
  · simp only [ow_update_rom_id, ow_start, ow_stop, ow_write_bit]
    split_ifs <;>
      first
        | exact ⟨h1, fun hh => by simp at hh⟩
        | exact ⟨Nat.zero_le _, fun _ => Nat.lt_of_lt_of_le Nat.zero_lt_one hm⟩
  · simp only [ow_write_any, ow_start, ow_stop, ow_write_bit]
    rcases d with _ | src <;> split_ifs <;>
      exact ⟨h1, fun hh => by simp at hh⟩
  · simp only [ow_read_any, ow_start, ow_stop, ow_write_bit]
    split_ifs <;>
      exact ⟨h1, fun hh => by simp at hh⟩
  · simp only [ow_write_by_id, ow_start, ow_stop, ow_write_bit]
    rcases d with _ | src <;> rcases len with _ | len' <;> split_ifs <;>
      exact ⟨h1, fun hh => by simp at hh⟩
  · simp only [ow_read_by_id, ow_start, ow_stop, ow_write_bit]
    split_ifs <;>
      exact ⟨h1, fun hh => by simp at hh⟩

/-- C10 witness: starting a search on the concrete idle handle h0 under the
concrete configuration cfg0 establishes the invariant. -/
theorem c10_witness :
    rom_inv cfg0 (ow_update_rom_id cfg0 h0 true).2.1 :=
  (c10_found_invariant cfg0 h0 true 0x44 0 0 Option.none (by decide)
    ⟨by decide, fun hs => by simp [h0, ow_buf.zero, ow_search.zero] at hs⟩).1

end OW
